import Mathlib

/-!
Shallow embedding of the knowledge-base blog backend
(`app/services/blog_service.py`, `app/services/file_service.py`,
`app/models/blog_post.py`, `app/routes/blog_routes.py`).

The document store is modelled as an association list from ObjectId strings
to post documents; each MongoDB single-document operator (`$set`, `$inc`,
`$push`, `$pull`) becomes a pure update of the matched document.  Timestamps
are `Nat`; each service call that reads the clock takes the instant `now`
as a parameter.  The blob store of `FileService` is an association list from
filesystem paths to byte lists.
-/

set_option linter.unusedVariables false

namespace KB

/-- Attachment record embedded in a post, mirroring the dict produced by
`FileService.save_file` (`filename`, `original_filename`, `url`, `size`,
`mime_type`, `uploaded_at`). -/
structure Attachment where
  filename : String
  original_filename : String
  url : String
  size : Nat
  mime_type : String
  uploaded_at : Nat
deriving DecidableEq

/-- A stored blog-post document, mirroring the fields of `BlogPost` in
`app/models/blog_post.py`. -/
structure PostDoc where
  title : String
  content : String
  excerpt : Option String
  thumbnail_url : Option String
  author : String
  status : String
  tags : List String
  attachments : List Attachment
  created_at : Nat
  updated_at : Nat
  published_at : Option Nat
  view_count : Nat
deriving DecidableEq

/-- Mirror of the pydantic model `BlogPostCreate`: `status` defaults to
`"draft"` when the caller does not supply it. -/
structure BlogPostCreate where
  title : String
  content : String
  excerpt : Option String := none
  author : String
  status : String := "draft"
  tags : List String := []
deriving DecidableEq

/-- Mirror of the pydantic model `BlogPostUpdate`: every field optional;
`none` fields are dropped from the update dict by
`{k: v for k, v in update_data.model_dump().items() if v is not None}`. -/
structure BlogPostUpdate where
  title : Option String := none
  content : Option String := none
  excerpt : Option String := none
  status : Option String := none
  tags : Option (List String) := none
  published_at : Option Nat := none
deriving DecidableEq

/-- The field map (`update_dict`) that `BlogService.update_post` passes to
`update_one` as `$set`: a key is present exactly when the corresponding
`Option` is `some`. -/
structure UpdateDict where
  title : Option String := none
  content : Option String := none
  excerpt : Option String := none
  status : Option String := none
  tags : Option (List String) := none
  updated_at : Option Nat := none
  published_at : Option Nat := none
deriving DecidableEq

/-- Model of bson `ObjectId(post_id)` validity: the constructor accepts a
24-character hexadecimal string and raises `InvalidId` otherwise. -/
def isValidObjectId (s : String) : Bool :=
  s.length == 24 &&
    s.data.all fun c =>
      c.isDigit || (decide ('a' ≤ c) && decide (c ≤ 'f')) ||
        (decide ('A' ≤ c) && decide (c ≤ 'F'))

/-- The post collection: documents keyed by their ObjectId string.  `find_one`
on an `_id` filter returns the (unique) matching document. -/
def storeFind (store : List (String × PostDoc)) (id : String) : Option PostDoc :=
  (store.find? fun e => e.1 == id).map Prod.snd

/-- A single-document update: `update_one({"_id": id}, ...)` applies `f` to
the first document whose key matches `id` and leaves the rest unchanged. -/
def storeUpdate (store : List (String × PostDoc)) (id : String) (f : PostDoc → PostDoc) :
    List (String × PostDoc) :=
  match store with
  | [] => []
  | e :: rest => if e.1 == id then (e.1, f e.2) :: rest else e :: storeUpdate rest id f

/-- Mirror of `BlogService.create_post`: dumps the create model, stamps
`created_at = updated_at = now`, `view_count = 0`, `attachments = []`,
inserts the document under the store-assigned id, and returns it. -/
def create_post (store : List (String × PostDoc)) (input : BlogPostCreate)
    (newId : String) (now : Nat) : List (String × PostDoc) × PostDoc :=
  let doc : PostDoc :=
    { title := input.title, content := input.content, excerpt := input.excerpt,
      thumbnail_url := none, author := input.author, status := input.status,
      tags := input.tags, attachments := [], created_at := now, updated_at := now,
      published_at := none, view_count := 0 }
  (store ++ [(newId, doc)], doc)

/-- Mirror of `BlogService.get_post_by_id`: returns the matching document, or `none`
both when no document matches and when `ObjectId(post_id)` raises
`InvalidId` (the `except` branch also returns `None`). -/
def get_post_by_id (store : List (String × PostDoc)) (post_id : String) : Option PostDoc :=
  if isValidObjectId post_id then storeFind store post_id else none

/-- Descending comparison on `published_at` as MongoDB sorts it with
`sort=[("published_at", -1)]`: timestamps come newest first, and a missing
(`null`) timestamp sorts below every timestamp, hence last. -/
def publishedDescB (a b : Option Nat) : Bool :=
  match a, b with
  | _, none => true
  | none, some _ => false
  | some x, some y => y ≤ x

/-- The relation `publishedDesc a b` holds when document `a` may precede document `b` in
the published-posts listing: `a.published_at` is at least `b.published_at`
under the order of `publishedDescB`. -/
def publishedDesc (a b : PostDoc) : Prop :=
  publishedDescB a.published_at b.published_at = true

instance : DecidableRel publishedDesc := fun a b =>
  inferInstanceAs (Decidable (_ = true))

instance : IsTotal PostDoc publishedDesc := by
  constructor
  intro a b
  unfold publishedDesc publishedDescB
  rcases a.published_at with _ | x <;> rcases b.published_at with _ | y <;> simp
  exact Nat.le_total y x

instance : IsTrans PostDoc publishedDesc := by
  constructor
  intro a b c
  unfold publishedDesc publishedDescB
  rcases a.published_at with _ | x <;> rcases b.published_at with _ | y <;>
    rcases c.published_at with _ | z <;> intro hab hbc <;> simp_all <;> omega

/-- Mirror of `BlogService.get_published_posts`: `find({"status": "published"},
sort=[("published_at", -1)]).skip(skip).limit(limit)` — filter the
collection, sort by `published_at` descending, then apply skip and limit. -/
def get_published_posts (store : List (String × PostDoc)) (skip limit : Nat) :
    List PostDoc :=
  ((List.insertionSort publishedDesc
      (((store.map Prod.snd).filter fun d => d.status == "published"))).drop skip).take limit

/-- The `update_dict` built by `BlogService.update_post` at instant `now`:
the non-`None` patch fields, plus `updated_at = now`, plus — when the patch
sets `status` to `"published"` and carries no `published_at` of its own —
`published_at = now`.  The stored document is never consulted. -/
def buildUpdateDict (u : BlogPostUpdate) (now : Nat) : UpdateDict :=
  { title := u.title, content := u.content, excerpt := u.excerpt,
    status := u.status, tags := u.tags, updated_at := some now,
    published_at :=
      match u.published_at with
      | some t => some t
      | none => if u.status == some "published" then some now else none }

/-- Mongo `$set` with field map `m` on document `d`: each present key
overwrites the corresponding field; absent keys leave the field unchanged.
`created_at`, `attachments`, `thumbnail_url` and `view_count` are never keys
of an `update_post` field map. -/
def applySet (m : UpdateDict) (d : PostDoc) : PostDoc :=
  { d with
    title := m.title.getD d.title,
    content := m.content.getD d.content,
    excerpt := match m.excerpt with | some e => some e | none => d.excerpt,
    status := m.status.getD d.status,
    tags := m.tags.getD d.tags,
    updated_at := m.updated_at.getD d.updated_at,
    published_at := match m.published_at with | some t => some t | none => d.published_at }

/-- Mirror of `BlogService.update_post`: builds the update dict, issues one
`update_one` with `$set`, and returns `get_post_by_id`; on an invalid
ObjectId the `except InvalidId` branch returns `None` without updating. -/
def update_post (store : List (String × PostDoc)) (post_id : String)
    (u : BlogPostUpdate) (now : Nat) : List (String × PostDoc) × Option PostDoc :=
  if isValidObjectId post_id then
    let store' := storeUpdate store post_id (applySet (buildUpdateDict u now))
    (store', get_post_by_id store' post_id)
  else (store, none)

/-- Mirror of `BlogService.increment_view_count`: one `update_one` with
`$inc {"view_count": 1}`; an invalid ObjectId is swallowed (warning log).
`now` is the wall-clock instant of the call; the issued field map does not
mention the clock, so the result does not depend on `now`. -/
def increment_view_count (store : List (String × PostDoc)) (post_id : String)
    (now : Nat) : List (String × PostDoc) :=
  if isValidObjectId post_id then
    storeUpdate store post_id fun d => { d with view_count := d.view_count + 1 }
  else store

/-- Mirror of `BlogService.add_attachment`: one `update_one` with
`$push {"attachments": a}` (append), returning `True`; the only `False`
path is the `except InvalidId` branch.  `now` is the wall-clock instant of
the call; the issued field map does not mention the clock. -/
def add_attachment (store : List (String × PostDoc)) (post_id : String)
    (a : Attachment) (now : Nat) : List (String × PostDoc) × Bool :=
  if isValidObjectId post_id then
    (storeUpdate store post_id fun d => { d with attachments := d.attachments ++ [a] }, true)
  else (store, false)

/-- Mirror of `BlogService.remove_attachment`: one `update_one` with
`$pull {"attachments": {"filename": filename}}` — `$pull` removes **every**
array element matching the condition — returning `True`; the only `False`
path is the `except InvalidId` branch.  `now` is the wall-clock instant of
the call; the issued field map does not mention the clock. -/
def remove_attachment (store : List (String × PostDoc)) (post_id : String)
    (filename : String) (now : Nat) : List (String × PostDoc) × Bool :=
  if isValidObjectId post_id then
    (storeUpdate store post_id fun d =>
      { d with attachments := d.attachments.filter fun a => a.filename != filename }, true)
  else (store, false)

/-- Mirror of `BlogService.set_thumbnail`: one `update_one` with
`$set {"thumbnail_url": url}`, returning `True`; the only `False` path is
the `except InvalidId` branch.  The field map names no other key.  `now` is
the wall-clock instant of the call; the issued field map does not mention
the clock. -/
def set_thumbnail (store : List (String × PostDoc)) (post_id : String)
    (url : String) (now : Nat) : List (String × PostDoc) × Bool :=
  if isValidObjectId post_id then
    (storeUpdate store post_id fun d => { d with thumbnail_url := some url }, true)
  else (store, false)

/-! ### FileService (`app/services/file_service.py`) -/

/-- Mirror of `FileService.upload_dir`. -/
def upload_dir : String := "app/uploads"

/-- Mirror of `FileService.max_file_size = 50 * 1024 * 1024` (50 MiB). -/
def max_file_size : Nat := 50 * 1024 * 1024

/-- Mirror of `FileService.allowed_image_types`. -/
def allowed_image_types : List String :=
  ["image/jpeg", "image/png", "image/gif", "image/webp"]

/-- Mirror of `FileService.allowed_document_types`. -/
def allowed_document_types : List String :=
  ["application/pdf", "application/msword",
   "application/vnd.openxmlformats-officedocument.wordprocessingml.document",
   "application/vnd.ms-excel",
   "application/vnd.openxmlformats-officedocument.spreadsheetml.sheet",
   "text/plain", "text/csv"]

/-- An incoming upload, mirroring FastAPI `UploadFile`: the declared
`content_type` and `size` are optional client-reported metadata; `content`
is the byte stream returned by `file.read()`. -/
structure UploadFile where
  filename : String
  content_type : Option String := none
  size : Option Nat := none
  content : List Nat := []
deriving DecidableEq

/-- Model of the Python stdlib `mimetypes.guess_type(filename)[0]` for the
extensions relevant to this service (the stdlib table restricted). -/
def guessType (filename : String) : Option String :=
  if filename.endsWith ".jpg" || filename.endsWith ".jpeg" then some "image/jpeg"
  else if filename.endsWith ".png" then some "image/png"
  else if filename.endsWith ".gif" then some "image/gif"
  else if filename.endsWith ".webp" then some "image/webp"
  else if filename.endsWith ".pdf" then some "application/pdf"
  else if filename.endsWith ".txt" then some "text/plain"
  else if filename.endsWith ".csv" then some "text/csv"
  else if filename.endsWith ".zip" then some "application/zip"
  else none

/-- The `mime_type` computed by `FileService._get_file_info`:
`file.content_type or mimetypes.guess_type(file.filename)[0] or
"application/octet-stream"` — Python `or` skips a missing or empty declared
type. -/
def resolvedMime (f : UploadFile) : String :=
  match f.content_type with
  | some m => if m = "" then (guessType f.filename).getD "application/octet-stream" else m
  | none => (guessType f.filename).getD "application/octet-stream"

/-- The size guard of `FileService.save_file`:
`file.size and file.size > self.max_file_size` — a missing (or zero, hence
falsy) declared size skips the check. -/
def sizeTooLarge (f : UploadFile) : Bool :=
  match f.size with
  | some s => s != 0 && s > max_file_size
  | none => false

/-- Model of the extension component of Python `os.path.splitext`: the
suffix from the last dot (for names not starting with a dot), empty when
there is none. -/
def splitextExt (s : String) : String :=
  match s.splitOn "." with
  | [] => ""
  | [_] => ""
  | parts => "." ++ (parts.getLast?).getD ""

/-- Mirror of `FileService._generate_filename` with empty prefix: a fresh unique id
`uid` (the uuid4 draw, passed as a parameter) plus the original extension. -/
def generate_filename (original_filename : String) (uid : String) : String :=
  uid ++ splitextExt original_filename

/-- Model of POSIX `os.path.join` on two components. -/
def pathJoin (a b : String) : String :=
  if b.data.head? = some '/' then b
  else if a = "" then b
  else if a.data.getLast? = some '/' then a ++ b
  else a ++ "/" ++ b

/-- The descriptor dict returned by `FileService.save_file`. -/
structure StoredDescriptor where
  filename : String
  original_filename : String
  url : String
  size : Nat
  mime_type : String
  uploaded_at : Nat
deriving DecidableEq

/-- Validation failures raised by `FileService` as `HTTPException`s:
`invalidMediaType` is the status-400 media-type rejection and
`sizeLimitExceeded` the status-413 "File too large" rejection. -/
inductive UploadError where
  | invalidMediaType
  | sizeLimitExceeded
deriving DecidableEq

/-- Mirror of `FileService.save_file`: rejects an over-sized declared size with 413
before touching the blob store; otherwise writes the content under
`upload_dir/subdirectory/<generated name>` and returns the descriptor.
`uid` is the uuid4 draw and `now` the clock reading `datetime.utcnow()`. -/
def save_file (blobs : List (String × List Nat)) (file : UploadFile)
    (subdirectory : String) (uid : String) (now : Nat) :
    List (String × List Nat) × Except UploadError StoredDescriptor :=
  if sizeTooLarge file then (blobs, .error .sizeLimitExceeded)
  else
    let unique := generate_filename file.filename uid
    let path := pathJoin (pathJoin upload_dir subdirectory) unique
    ((path, file.content) :: blobs,
     .ok { filename := unique, original_filename := file.filename,
           url := "/uploads/" ++ subdirectory ++ "/" ++ unique,
           size := file.content.length, mime_type := resolvedMime file,
           uploaded_at := now })

/-- Mirror of `FileService.upload_thumbnail`: validates the resolved media type
against the image allow-list (400 on failure, before any write), then
defers to `save_file` on the `"thumbnails"` bucket. -/
def upload_thumbnail (blobs : List (String × List Nat)) (file : UploadFile)
    (uid : String) (now : Nat) :
    List (String × List Nat) × Except UploadError StoredDescriptor :=
  if allowed_image_types.contains (resolvedMime file) then
    save_file blobs file "thumbnails" uid now
  else (blobs, .error .invalidMediaType)

/-- Mirror of `FileService.upload_attachment`: validates the resolved media type
against the union of the image and document allow-lists (400 on failure,
before any write), then defers to `save_file` on the `"attachments"`
bucket. -/
def upload_attachment (blobs : List (String × List Nat)) (file : UploadFile)
    (uid : String) (now : Nat) :
    List (String × List Nat) × Except UploadError StoredDescriptor :=
  if (allowed_image_types ++ allowed_document_types).contains (resolvedMime file) then
    save_file blobs file "attachments" uid now
  else (blobs, .error .invalidMediaType)

/-- Model of Python `str.lstrip(chars)`: removes every leading character
that belongs to the character *set* `chars` (not the literal prefix). -/
def pyLstrip (s : String) (chars : String) : String :=
  String.mk (s.data.dropWhile fun c => chars.data.contains c)

/-- Mirror of `FileService.delete_file`: resolves
`os.path.join(upload_dir, file_path.lstrip("/uploads/"))` and removes the
blob at that path when it exists (returning `True`), else returns `False`. -/
def delete_file (blobs : List (String × List Nat)) (file_path : String) :
    List (String × List Nat) × Bool :=
  let full := pathJoin upload_dir (pyLstrip file_path "/uploads/")
  if (blobs.find? fun e => e.1 == full).isSome then
    (blobs.filter fun e => e.1 != full, true)
  else (blobs, false)

/-! ### Helper lemmas -/

/-- Reading back the updated key after a single-document update applies the
update function under the `Option`. -/
theorem storeFind_storeUpdate (store : List (String × PostDoc)) (id : String)
    (f : PostDoc → PostDoc) :
    storeFind (storeUpdate store id f) id = (storeFind store id).map f := by
  induction store with
  | nil => rfl
  | cons e rest ih =>
    unfold storeUpdate
    by_cases h : e.1 = id
    · simp [storeFind, List.find?, h]
    · have hb : (e.1 == id) = false := beq_eq_false_iff_ne.mpr h
      simp only [beq_iff_eq, h, if_false]
      simp only [storeFind, List.find?] at ih ⊢
      rw [hb]
      simpa [Option.map_map] using ih

/-! ### Concrete fixtures used by witnesses and counterexamples -/

/-- A syntactically valid ObjectId (24 hexadecimal characters). -/
def oid0 : String := "0123456789abcdef01234567"

/-- A stored post that has already been published once (`published_at` set)
and then unpublished back to draft. -/
def basePost : PostDoc :=
  { title := "t", content := "c", excerpt := none, thumbnail_url := none,
    author := "au", status := "draft", tags := [], attachments := [],
    created_at := 1, updated_at := 5, published_at := some 100, view_count := 0 }

/-! ### Claims -/

/-- Claim C1 counterexample.  The claim says a patch setting `status` to
`"published"` with no `published_at` of its own leaves an already-set stored
`published_at` unchanged.  It is false: for the stored post with
`published_at = some 100`, running `update_post` at instant 200 with such a
patch leaves the stored `published_at` at `some 200`, not `some 100`. -/
theorem c1_counterexample :
    basePost.published_at = some 100 ∧
    (storeFind (update_post [(oid0, basePost)] oid0
        { status := some "published" } 200).1 oid0).map PostDoc.published_at =
      some (some 200) := by
  exact ⟨rfl, rfl⟩

/-- Claim C1 amended.  When the patch sets `status = "published"` and
carries no `published_at`, `update_post` overwrites the stored
`published_at` with the instant of the call — the stored value is never
consulted, so a publish → unpublish → publish sequence re-stamps
`published_at` with the latest publish time instead of keeping the original
one. -/
theorem c1_publish_patch_overwrites_published_at
    (store : List (String × PostDoc)) (post_id : String) (u : BlogPostUpdate)
    (now : Nat) (d : PostDoc)
    (hid : isValidObjectId post_id = true)
    (hfind : storeFind store post_id = some d)
    (hstatus : u.status = some "published")
    (hpub : u.published_at = none) :
    (storeFind (update_post store post_id u now).1 post_id).map
      PostDoc.published_at = some (some now) := by
  simp [update_post, get_post_by_id, hid, storeFind_storeUpdate, hfind,
    applySet, buildUpdateDict, hstatus, hpub]

/-- Witness for C1 (amended) at the concrete unpublished-then-republished
post `basePost`. -/
theorem c1_publish_patch_overwrites_published_at_witness :
    isValidObjectId oid0 = true ∧
    storeFind [(oid0, basePost)] oid0 = some basePost ∧
    (storeFind (update_post [(oid0, basePost)] oid0
        { status := some "published" } 200).1 oid0).map PostDoc.published_at =
      some (some 200) :=
  ⟨by decide, by decide,
    c1_publish_patch_overwrites_published_at [(oid0, basePost)] oid0
      { status := some "published" } 200 basePost (by decide) (by decide) rfl rfl⟩

/-- Claim C2 counterexample.  The claim says every mutating operation
refreshes `updated_at` to the time of the operation.  It is false for
`set_thumbnail`: on the stored post with `updated_at = 5`, a call at
instant 10 leaves `updated_at` at 5 (its field map names only
`thumbnail_url`), and `5 ≠ 10`. -/
theorem c2_counterexample :
    (storeFind (set_thumbnail [(oid0, basePost)] oid0 "/uploads/thumbnails/x.png" 10).1
        oid0).map PostDoc.updated_at = some 5 ∧ (5 : Nat) ≠ 10 := by
  exact ⟨rfl, by decide⟩

/-- Claim C2 amended.  Every mutating operation leaves `created_at`
unchanged, but only `update_post` refreshes `updated_at` to the instant of
the call; `set_thumbnail`, `add_attachment`, `remove_attachment` and
`increment_view_count` leave `updated_at` unchanged as well. -/
theorem c2_created_at_immutable_updated_at_only_on_update
    (store : List (String × PostDoc)) (post_id : String) (d : PostDoc)
    (u : BlogPostUpdate) (a : Attachment) (fn url : String) (now : Nat)
    (hid : isValidObjectId post_id = true)
    (hfind : storeFind store post_id = some d) :
    ((storeFind (update_post store post_id u now).1 post_id).map
        (fun p => (p.created_at, p.updated_at)) = some (d.created_at, now)) ∧
    ((storeFind (set_thumbnail store post_id url now).1 post_id).map
        (fun p => (p.created_at, p.updated_at)) = some (d.created_at, d.updated_at)) ∧
    ((storeFind (add_attachment store post_id a now).1 post_id).map
        (fun p => (p.created_at, p.updated_at)) = some (d.created_at, d.updated_at)) ∧
    ((storeFind (remove_attachment store post_id fn now).1 post_id).map
        (fun p => (p.created_at, p.updated_at)) = some (d.created_at, d.updated_at)) ∧
    ((storeFind (increment_view_count store post_id now) post_id).map
        (fun p => (p.created_at, p.updated_at)) = some (d.created_at, d.updated_at)) := by
  refine ⟨?_, ?_, ?_, ?_, ?_⟩ <;>
    simp [update_post, set_thumbnail, add_attachment, remove_attachment,
      increment_view_count, hid, storeFind_storeUpdate, hfind, applySet, buildUpdateDict]

/-- Witness for C2 (amended) on the concrete store holding `basePost`. -/
theorem c2_created_at_immutable_updated_at_only_on_update_witness :
    isValidObjectId oid0 = true ∧
    storeFind [(oid0, basePost)] oid0 = some basePost ∧
    (storeFind (set_thumbnail [(oid0, basePost)] oid0 "x" 10).1 oid0).map
      (fun p => (p.created_at, p.updated_at)) = some (1, 5) :=
  ⟨by decide, by decide,
    (c2_created_at_immutable_updated_at_only_on_update [(oid0, basePost)] oid0 basePost
      {} { filename := "f", original_filename := "f", url := "u", size := 0,
           mime_type := "m", uploaded_at := 0 } "f" "x" 10
      (by decide) (by decide)).2.1⟩

/-- Claim C3.  When the patch sets `status = "published"` and carries no
`published_at` of its own, the field map `update_post` sends in its single
`update_one` call contains both `published_at = now` and `updated_at = now`,
and the stored document after that one call is exactly the old document
with that field map applied — its `published_at` is `now` and its
`updated_at` is `now`, with no intermediate stored state. -/
theorem c3_publish_injects_published_at_in_same_call
    (store : List (String × PostDoc)) (post_id : String) (u : BlogPostUpdate)
    (now : Nat) (d : PostDoc)
    (hid : isValidObjectId post_id = true)
    (hfind : storeFind store post_id = some d)
    (hstatus : u.status = some "published")
    (hpub : u.published_at = none) :
    (buildUpdateDict u now).published_at = some now ∧
    (buildUpdateDict u now).updated_at = some now ∧
    storeFind (update_post store post_id u now).1 post_id =
      some (applySet (buildUpdateDict u now) d) ∧
    (applySet (buildUpdateDict u now) d).published_at = some now ∧
    (applySet (buildUpdateDict u now) d).updated_at = now := by
  refine ⟨?_, rfl, ?_, ?_, rfl⟩ <;>
    simp [update_post, hid, storeFind_storeUpdate, hfind, applySet,
      buildUpdateDict, hstatus, hpub]

/-- Witness for C3 at the concrete store holding `basePost`. -/
theorem c3_publish_injects_published_at_in_same_call_witness :
    isValidObjectId oid0 = true ∧
    storeFind [(oid0, basePost)] oid0 = some basePost ∧
    (buildUpdateDict { status := some "published" } 200).published_at = some 200 :=
  ⟨by decide, by decide,
    (c3_publish_injects_published_at_in_same_call [(oid0, basePost)] oid0
      { status := some "published" } 200 basePost (by decide) (by decide) rfl rfl).1⟩

/-- Claim C4 counterexample.  The claim says a syntactically invalid id
makes `get_post_by_id` fail with a `MalformedIdentifier` error that is
distinguishable from the not-found result.  It is false: on the empty
store, the malformed id `"not-an-objectid"` and the valid-but-absent id
`oid0` produce the very same result, `none` — the `except InvalidId` branch
returns `None` just like the not-found path, and the return type carries no
error at all. -/
theorem c4_counterexample :
    isValidObjectId "not-an-objectid" = false ∧
    isValidObjectId oid0 = true ∧
    get_post_by_id [] "not-an-objectid" = none ∧
    get_post_by_id [] oid0 = none ∧
    get_post_by_id [] "not-an-objectid" = get_post_by_id [] oid0 := by
  exact ⟨by decide, by decide, rfl, rfl, rfl⟩

/-- Claim C4 amended.  The function `get_post_by_id` returns `none` for a syntactically
invalid id — the same value it returns for a syntactically valid id with no
matching document — so malformed identifiers are indistinguishable from
not-found. -/
theorem c4_malformed_id_indistinguishable_from_not_found
    (store : List (String × PostDoc)) (post_id : String) :
    (isValidObjectId post_id = false → get_post_by_id store post_id = none) ∧
    (isValidObjectId post_id = true → storeFind store post_id = none →
      get_post_by_id store post_id = none) := by
  constructor
  · intro h
    simp [get_post_by_id, h]
  · intro h habs
    simp [get_post_by_id, h, habs]

/-- Witness for C4 (amended) at the malformed id on the empty store. -/
theorem c4_malformed_id_indistinguishable_from_not_found_witness :
    isValidObjectId "not-an-objectid" = false ∧
    get_post_by_id [] "not-an-objectid" = none :=
  ⟨by decide,
    (c4_malformed_id_indistinguishable_from_not_found [] "not-an-objectid").1 (by decide)⟩

/-- Claim C5.  Every post returned by `get_published_posts` has status
`"published"`, and the returned sequence is sorted by `published_at`
descending (`publishedDesc` pairwise, newest publish time first, missing
timestamps last), for every store state, skip and limit. -/
theorem c5_get_published_posts_filtered_and_sorted
    (store : List (String × PostDoc)) (skip limit : Nat) :
    (∀ p ∈ get_published_posts store skip limit, p.status = "published") ∧
    List.Sorted publishedDesc (get_published_posts store skip limit) := by
  constructor
  · intro p hp
    unfold get_published_posts at hp
    have hsub : List.Sublist
        (((List.insertionSort publishedDesc
          ((store.map Prod.snd).filter fun d => d.status == "published")).drop skip).take limit)
        (List.insertionSort publishedDesc
          ((store.map Prod.snd).filter fun d => d.status == "published")) :=
      (List.take_sublist _ _).trans (List.drop_sublist _ _)
    have h1 := hsub.mem hp
    have h2 := (List.perm_insertionSort publishedDesc _).mem_iff.mp h1
    have h3 := List.mem_filter.mp h2
    simpa using h3.2
  · unfold get_published_posts
    exact List.Pairwise.sublist ((List.take_sublist _ _).trans (List.drop_sublist _ _))
      (List.sorted_insertionSort publishedDesc _)

/-- A concrete published post used by the C5 witness. -/
def pubPost : PostDoc :=
  { title := "p", content := "c", excerpt := none, thumbnail_url := none,
    author := "au", status := "published", tags := [], attachments := [],
    created_at := 1, updated_at := 2, published_at := some 50, view_count := 3 }

/-- Witness for C5 on a two-post store holding one draft and one published
post. -/
theorem c5_get_published_posts_filtered_and_sorted_witness :
    pubPost ∈ get_published_posts [(oid0, pubPost), ("ffffffffffffffffffffffff", basePost)] 0 10 ∧
    pubPost.status = "published" :=
  ⟨by decide,
    (c5_get_published_posts_filtered_and_sorted
      [(oid0, pubPost), ("ffffffffffffffffffffffff", basePost)] 0 10).1 pubPost (by decide)⟩

/-- Claim C6.  Upload validation happens before any blob write: when the
resolved media type is outside the target bucket's allow-list the upload
fails with the media-type error, and when the declared size exceeds the
50 MiB ceiling it fails with the size error — in every such case the blob
store is returned unchanged. -/
theorem c6_upload_validation_precedes_write
    (blobs : List (String × List Nat)) (file : UploadFile) (uid : String) (now : Nat) :
    (allowed_image_types.contains (resolvedMime file) = false →
      upload_thumbnail blobs file uid now = (blobs, Except.error UploadError.invalidMediaType)) ∧
    (allowed_image_types.contains (resolvedMime file) = true → sizeTooLarge file = true →
      upload_thumbnail blobs file uid now = (blobs, Except.error UploadError.sizeLimitExceeded)) ∧
    ((allowed_image_types ++ allowed_document_types).contains (resolvedMime file) = false →
      upload_attachment blobs file uid now = (blobs, Except.error UploadError.invalidMediaType)) ∧
    ((allowed_image_types ++ allowed_document_types).contains (resolvedMime file) = true →
      sizeTooLarge file = true →
      upload_attachment blobs file uid now = (blobs, Except.error UploadError.sizeLimitExceeded)) := by
  refine ⟨fun h => ?_, fun h hs => ?_, fun h => ?_, fun h hs => ?_⟩
  · simp only [upload_thumbnail, h]
    simp
  · simp only [upload_thumbnail, save_file, h, hs]
    simp
  · simp only [upload_attachment, h]
    simp
  · simp only [upload_attachment, save_file, h, hs]
    simp

/-- A file declared as `application/zip`, 60 MiB: in neither allow-list and
over the ceiling. -/
def zipFile : UploadFile :=
  { filename := "a.zip", content_type := some "application/zip",
    size := some (60 * 1024 * 1024), content := [1, 2, 3] }

/-- A 60 MiB file declared as `image/png`: allowed type, oversize. -/
def bigPng : UploadFile :=
  { filename := "a.png", content_type := some "image/png",
    size := some (60 * 1024 * 1024), content := [1, 2, 3] }

/-- Witness for C6: the zip upload fails the thumbnail media-type check and
the 60 MiB png fails the size ceiling, each leaving the empty blob store
empty. -/
theorem c6_upload_validation_precedes_write_witness :
    allowed_image_types.contains (resolvedMime zipFile) = false ∧
    upload_thumbnail [] zipFile "uid" 7 = ([], Except.error UploadError.invalidMediaType) ∧
    allowed_image_types.contains (resolvedMime bigPng) = true ∧
    sizeTooLarge bigPng = true ∧
    upload_thumbnail [] bigPng "uid" 7 = ([], Except.error UploadError.sizeLimitExceeded) :=
  ⟨by decide,
    (c6_upload_validation_precedes_write [] zipFile "uid" 7).1 (by decide),
    by decide, by decide,
    (c6_upload_validation_precedes_write [] bigPng "uid" 7).2.1 (by decide) (by decide)⟩

/-- Claim C7.  The operation `remove_attachment` replaces the stored attachment list with
its filter keeping exactly the records whose `filename` differs from the
given one: every matching record (all of them, not only the first) is gone
and every non-matching record survives. -/
theorem c7_remove_attachment_removes_all_matches
    (store : List (String × PostDoc)) (post_id fn : String) (d : PostDoc) (now : Nat)
    (hid : isValidObjectId post_id = true)
    (hfind : storeFind store post_id = some d) :
    ((storeFind (remove_attachment store post_id fn now).1 post_id).map
        PostDoc.attachments =
      some (d.attachments.filter fun a => a.filename != fn)) ∧
    (∀ a ∈ d.attachments, a.filename = fn →
      a ∉ d.attachments.filter fun a => a.filename != fn) ∧
    (∀ a ∈ d.attachments, a.filename ≠ fn →
      a ∈ d.attachments.filter fun a => a.filename != fn) := by
  refine ⟨?_, ?_, ?_⟩
  · simp [remove_attachment, hid, storeFind_storeUpdate, hfind]
  · intro a ha heq
    simp [List.mem_filter, heq]
  · intro a ha hne
    simp [List.mem_filter, ha, hne]

/-- A post carrying two attachments named `x.png` and one named `y.pdf`. -/
def attPost : PostDoc :=
  { basePost with attachments :=
      [{ filename := "x.png", original_filename := "o1", url := "u1", size := 1,
         mime_type := "image/png", uploaded_at := 1 },
       { filename := "y.pdf", original_filename := "o2", url := "u2", size := 2,
         mime_type := "application/pdf", uploaded_at := 2 },
       { filename := "x.png", original_filename := "o3", url := "u3", size := 3,
         mime_type := "image/png", uploaded_at := 3 }] }

/-- Witness for C7: removing `x.png` from `attPost` deletes both `x.png`
records and keeps `y.pdf`. -/
theorem c7_remove_attachment_removes_all_matches_witness :
    isValidObjectId oid0 = true ∧
    storeFind [(oid0, attPost)] oid0 = some attPost ∧
    (storeFind (remove_attachment [(oid0, attPost)] oid0 "x.png" 9).1 oid0).map
        PostDoc.attachments =
      some [{ filename := "y.pdf", original_filename := "o2", url := "u2", size := 2,
              mime_type := "application/pdf", uploaded_at := 2 }] :=
  ⟨by decide, by decide, by
    have h := (c7_remove_attachment_removes_all_matches [(oid0, attPost)] oid0 "x.png"
      attPost 9 (by decide) (by decide)).1
    rw [h]
    decide⟩

/-- Claim C8.  The operation `create_post` returns a post with `view_count = 0`, an empty
attachment list, `created_at = updated_at`, and the status of the create
input — which defaults to `"draft"` when the caller does not specify one
(last conjunct: a `BlogPostCreate` literal omitting `status` has status
`"draft"`). -/
theorem c8_create_post_defaults
    (store : List (String × PostDoc)) (input : BlogPostCreate) (newId : String)
    (now : Nat) (t c au : String) (e : Option String) (tg : List String) :
    (create_post store input newId now).2.view_count = 0 ∧
    (create_post store input newId now).2.attachments = [] ∧
    (create_post store input newId now).2.created_at =
      (create_post store input newId now).2.updated_at ∧
    (create_post store input newId now).2.status = input.status ∧
    ({ title := t, content := c, excerpt := e, author := au, tags := tg } :
        BlogPostCreate).status = "draft" := by
  exact ⟨rfl, rfl, rfl, rfl, rfl⟩

/-- Claim C9.  The boolean result of `set_thumbnail`, `add_attachment` and
`remove_attachment` is exactly the syntactic validity of the ObjectId — in
particular, for a valid id with no stored post the three operations still
return `true`, so success never distinguishes an absent post (or absent
attachment) from a real update. -/
theorem c9_mutation_result_is_id_validity
    (store : List (String × PostDoc)) (post_id : String) (a : Attachment)
    (fn url : String) (now : Nat) :
    ((set_thumbnail store post_id url now).2 = isValidObjectId post_id) ∧
    ((add_attachment store post_id a now).2 = isValidObjectId post_id) ∧
    ((remove_attachment store post_id fn now).2 = isValidObjectId post_id) ∧
    (isValidObjectId post_id = true → storeFind store post_id = none →
      (set_thumbnail store post_id url now).2 = true ∧
      (add_attachment store post_id a now).2 = true ∧
      (remove_attachment store post_id fn now).2 = true) := by
  by_cases h : isValidObjectId post_id <;>
    simp [set_thumbnail, add_attachment, remove_attachment, h]

/-- Witness for C9: on the empty store (no post exists), the three
operations at the valid id `oid0` all return `true`. -/
theorem c9_mutation_result_is_id_validity_witness :
    isValidObjectId oid0 = true ∧
    storeFind ([] : List (String × PostDoc)) oid0 = none ∧
    (set_thumbnail [] oid0 "u" 0).2 = true ∧
    (add_attachment [] oid0
        { filename := "f", original_filename := "f", url := "u", size := 0,
          mime_type := "m", uploaded_at := 0 } 0).2 = true ∧
    (remove_attachment [] oid0 "f" 0).2 = true := by
  have h := (c9_mutation_result_is_id_validity [] oid0
    { filename := "f", original_filename := "f", url := "u", size := 0,
      mime_type := "m", uploaded_at := 0 } "f" "u" 0).2.2.2 (by decide) (by decide)
  exact ⟨by decide, by decide, h.1, h.2.1, h.2.2⟩

/-- Claim C10.  The operation `delete_file` strips from its argument every leading
character in the set of `"/uploads/"` (Python `str.lstrip` takes a
character set, not a prefix): for a stored filename `f` whose first
character is outside that set, `delete_file ("attachments/" ++ f)` strips
the leading `a` of `"attachments/"`, resolves the target to
`"app/uploads/ttachments/" ++ f` instead of
`"app/uploads/attachments/" ++ f`, and on a blob store holding the real
blob at the latter path it returns `false` and deletes nothing. -/
theorem c10_delete_file_lstrip_misresolves
    (c : Char) (cs : List Char) (bytes : List Nat)
    (hc : ("/uploads/").data.contains c = false) :
    (pyLstrip ("attachments/" ++ String.mk (c :: cs)) "/uploads/" =
      "ttachments/" ++ String.mk (c :: cs)) ∧
    (pathJoin upload_dir (pyLstrip ("attachments/" ++ String.mk (c :: cs)) "/uploads/") =
      "app/uploads/ttachments/" ++ String.mk (c :: cs)) ∧
    (delete_file [("app/uploads/attachments/" ++ String.mk (c :: cs), bytes)]
        ("attachments/" ++ String.mk (c :: cs)) =
      ([("app/uploads/attachments/" ++ String.mk (c :: cs), bytes)], false)) := by
  exact ⟨rfl, rfl, rfl⟩

/-- Witness for C10 at the filename `file.png`: the blob stored at
`app/uploads/attachments/file.png` survives and the call reports
`false`. -/
theorem c10_delete_file_lstrip_misresolves_witness :
    (("/uploads/").data.contains 'f') = false ∧
    delete_file [("app/uploads/attachments/file.png", [9, 9])] "attachments/file.png" =
      ([("app/uploads/attachments/file.png", [9, 9])], false) := by
  have h := (c10_delete_file_lstrip_misresolves 'f' "ile.png".data [9, 9] (by decide)).2.2
  exact ⟨by decide, h⟩
